import Mathlib

/-!
# The C adapter of pebbe/proj, v5 (`proj.c`, `proj_go.h`)

`proj.c` holds two functions, `pjnull` and `trans`.  Both are embedded below as
state-passing functions: the state `σ` stands for everything that lives outside
the adapter (the projection library's own data, among it the objects that
handles point to), and the library's entry point `proj_trans` is a parameter.

* A `double` is modelled by its IEEE-754 binary64 encoding (64 bits).  The
  adapter only copies doubles; it performs no arithmetic and no comparison on
  them.
* A `PJ *` is modelled by the address it holds, the null pointer being `0`.
* `PJ_DIRECTION` comes from the library header `<proj.h>`; the adapter only
  passes it on, so it is a type parameter.
* `PJ_COORD` is the library's coordinate record, read and written by the
  adapter through its member `uvwt` with the four `double` fields `u v w t`.
* The four out-parameters `u2 v2 w2 t2` of `trans` are the four fields of the
  returned `Outputs` record, one field for each store of the source; the four
  pointers are taken to be valid and to point to four different places, as they
  do in the Go caller.
* A call of `proj_trans` may fail to return (the process dies inside the
  library); this is the result `none`.
-/

namespace Proj

/-! ## Data model -/

/-- A C `double`, given by its IEEE-754 binary64 encoding. -/
structure Double where
  bits : Fin (2 ^ 64)
  deriving DecidableEq

/-- The rational number encoded by a binary64 bit pattern; `none` for the
patterns with all exponent bits set (the infinities and the NaNs). -/
def binary64 (bits : Nat) : Option ℚ :=
  let e : Nat := bits / 2 ^ 52 % 2 ^ 11
  let m : Nat := bits % 2 ^ 52
  let sign : ℚ := if bits / 2 ^ 63 % 2 = 1 then -1 else 1
  if e = 2047 then none
  else if e = 0 then some (sign * (m : ℚ) / 2 ^ 1074)
  else if e < 1075 then some (sign * ((2 ^ 52 + m : Nat) : ℚ) / 2 ^ (1075 - e))
  else some (sign * ((2 ^ 52 + m : Nat) : ℚ) * 2 ^ (e - 1075))

/-- The finite value of a double, if it has one. -/
def Double.toRat? (x : Double) : Option ℚ := binary64 x.bits.val

/-- The double `1.0`. -/
def lit_1_0 : Double := ⟨0x3FF0000000000000⟩
/-- The double `2.0`. -/
def lit_2_0 : Double := ⟨0x4000000000000000⟩
/-- The double `3.0`. -/
def lit_3_0 : Double := ⟨0x4008000000000000⟩
/-- The double `4.0`. -/
def lit_4_0 : Double := ⟨0x4010000000000000⟩
/-- The double `10.5`. -/
def lit_10_5 : Double := ⟨0x4025000000000000⟩
/-- The double `-3.25`. -/
def lit_neg_3_25 : Double := ⟨0xC00A000000000000⟩
/-- The double `0.0`. -/
def lit_0_0 : Double := ⟨0x0000000000000000⟩
/-- The double `2021.5`. -/
def lit_2021_5 : Double := ⟨0x409F960000000000⟩
/-- The double `HUGE_VAL` (positive infinity), the library's failure sentinel. -/
def HUGE_VAL : Double := ⟨0x7FF0000000000000⟩
/-- The double `NAN`, a quiet not-a-number. -/
def NAN : Double := ⟨0x7FF8000000000000⟩

/-- The value of a `PJ *`: the address it holds; `0` is the null pointer. -/
abbrev PJ_ptr := Nat

/-- The member `uvwt` of the library's coordinate union: four doubles. -/
structure PJ_UVWT where
  u : Double
  v : Double
  w : Double
  t : Double
  deriving DecidableEq

/-- The library's coordinate record `PJ_COORD`, seen through its member `uvwt`,
the only member the adapter touches; the record has exactly these four fields. -/
structure PJ_COORD where
  uvwt : PJ_UVWT
  deriving DecidableEq

/-- The values stored through the four out-parameters of `trans`. -/
structure Outputs where
  u2 : Double
  v2 : Double
  w2 : Double
  t2 : Double
  deriving DecidableEq

/-- The library's entry point `proj_trans(pj, direction, coord)`, as a function
of the state outside the adapter: it returns a coordinate record, or `none` when
the call does not return, together with the state it leaves behind. -/
abbrev ProjTrans (σ PJ_DIRECTION : Type) :=
  σ → PJ_ptr → PJ_DIRECTION → PJ_COORD → Option PJ_COORD × σ

/-! ## The functions of `proj.c` -/

/-- Source: `int pjnull(PJ *pj) { return pj == 0 ? 1 : 0; }`.  The result is a C
`int`; the state is handed back as it came. -/
def pjnull {σ : Type} (pj : PJ_ptr) (s : σ) : Int × σ :=
  (if pj = 0 then 1 else 0, s)

/-- Source: `void trans(PJ *pj, PJ_DIRECTION direction, double u1, double v1, double w1,
double t1, double *u2, double *v2, double *w2, double *t2)`.

The argument `co1` is the indeterminate initial content of the local variable
`co1`, which the source declares without an initialiser and then fills field by
field. -/
def trans {σ PJ_DIRECTION : Type} (proj_trans : ProjTrans σ PJ_DIRECTION) (co1 : PJ_COORD)
    (pj : PJ_ptr) (direction : PJ_DIRECTION) (u1 v1 w1 t1 : Double) (s : σ) :
    Option Outputs × σ :=
  let co1 : PJ_COORD := { co1 with uvwt := { co1.uvwt with u := u1 } }
  let co1 : PJ_COORD := { co1 with uvwt := { co1.uvwt with v := v1 } }
  let co1 : PJ_COORD := { co1 with uvwt := { co1.uvwt with w := w1 } }
  let co1 : PJ_COORD := { co1 with uvwt := { co1.uvwt with t := t1 } }
  match proj_trans s pj direction co1 with
  | (none, s') => (none, s')
  | (some co2, s') =>
    (some { u2 := co2.uvwt.u, v2 := co2.uvwt.v, w2 := co2.uvwt.w, t2 := co2.uvwt.t }, s')

/-- Modelled from the spec: `PJ_COORD uvwt(double u, double v, double w, double t)` is
declared in `proj_go.h` (line 8) but `proj.c` has no definition of it.  The body
follows the spec's `makeCoordinate`: a coordinate value with fields populated in
the fixed order (u, v, w, t); pure construction, no validation. -/
def uvwt (u v w t : Double) : PJ_COORD :=
  { uvwt := { u := u, v := v, w := w, t := t } }

/-! ## Instruments used to state the claims -/

/-- An entry point that always returns: the total function `f`. -/
def returning {σ PJ_DIRECTION : Type}
    (f : σ → PJ_ptr → PJ_DIRECTION → PJ_COORD → PJ_COORD × σ) : ProjTrans σ PJ_DIRECTION :=
  fun s pj direction co => (some (f s pj direction co).1, (f s pj direction co).2)

/-- One call of `proj_trans`, as the library receives it. -/
structure Call (PJ_DIRECTION : Type) where
  pj : PJ_ptr
  direction : PJ_DIRECTION
  co : PJ_COORD

/-- The entry point `proj_trans` with a record of the calls made to it: the
state is paired with the list of calls received so far, oldest first. -/
def logged {σ PJ_DIRECTION : Type} (proj_trans : ProjTrans σ PJ_DIRECTION) :
    ProjTrans (σ × List (Call PJ_DIRECTION)) PJ_DIRECTION :=
  fun s pj direction co =>
    ((proj_trans s.1 pj direction co).1,
      ((proj_trans s.1 pj direction co).2, s.2 ++ [⟨pj, direction, co⟩]))

/-- A call of one of the two functions of `proj.c`, with its arguments. -/
inductive Op (PJ_DIRECTION : Type) where
  | pjnull (pj : PJ_ptr)
  | trans (co1 : PJ_COORD) (pj : PJ_ptr) (direction : PJ_DIRECTION) (u1 v1 w1 t1 : Double)

/-- The state left behind by one call. -/
def Op.run {σ PJ_DIRECTION : Type} (proj_trans : ProjTrans σ PJ_DIRECTION) :
    Op PJ_DIRECTION → σ → σ
  | .pjnull pj, s => (Proj.pjnull pj s).2
  | .trans co1 pj direction u1 v1 w1 t1, s =>
    (Proj.trans proj_trans co1 pj direction u1 v1 w1 t1 s).2

/-- The state left behind by a sequence of calls, made one after the other. -/
def runAll {σ PJ_DIRECTION : Type} (proj_trans : ProjTrans σ PJ_DIRECTION)
    (ops : List (Op PJ_DIRECTION)) (s : σ) : σ :=
  ops.foldl (fun s op => op.run proj_trans s) s

/-! ## Pipelines used as concrete inputs -/

/-- An identity pipeline: every record comes back unchanged; the library counts
its calls in its state. -/
def identity_pipeline : ProjTrans Nat Int :=
  fun s _ _ co => (some co, s + 1)

/-- A pipeline whose every transformation fails the way the library reports it:
all four fields of the result are `HUGE_VAL`. -/
def failing_pipeline : ProjTrans Nat Int :=
  fun s _ _ _ => (some ⟨⟨HUGE_VAL, HUGE_VAL, HUGE_VAL, HUGE_VAL⟩⟩, s + 1)

/-- A pipeline whose results are not-a-number in every field. -/
def nan_pipeline : ProjTrans Nat Int :=
  fun s _ _ _ => (some ⟨⟨NAN, NAN, NAN, NAN⟩⟩, s + 1)

/-- Some content of the local variable `co1` before it is filled. -/
def stale : PJ_COORD := ⟨⟨NAN, lit_2021_5, HUGE_VAL, lit_neg_3_25⟩⟩

/-! ## The encodings of the literals -/

theorem lit_1_0_value : lit_1_0.toRat? = some 1 := by
  show binary64 0x3FF0000000000000 = _
  norm_num [binary64]

theorem lit_2_0_value : lit_2_0.toRat? = some 2 := by
  show binary64 0x4000000000000000 = _
  norm_num [binary64]

theorem lit_3_0_value : lit_3_0.toRat? = some 3 := by
  show binary64 0x4008000000000000 = _
  norm_num [binary64]

theorem lit_4_0_value : lit_4_0.toRat? = some 4 := by
  show binary64 0x4010000000000000 = _
  norm_num [binary64]

theorem lit_10_5_value : lit_10_5.toRat? = some (21 / 2) := by
  show binary64 0x4025000000000000 = _
  norm_num [binary64]

theorem lit_neg_3_25_value : lit_neg_3_25.toRat? = some (-13 / 4) := by
  show binary64 0xC00A000000000000 = _
  norm_num [binary64]

theorem lit_0_0_value : lit_0_0.toRat? = some 0 := by
  show binary64 0 = _
  norm_num [binary64]

theorem lit_2021_5_value : lit_2021_5.toRat? = some (4043 / 2) := by
  show binary64 0x409F960000000000 = _
  norm_num [binary64]

theorem HUGE_VAL_not_finite : HUGE_VAL.toRat? = none := by
  show binary64 0x7FF0000000000000 = _
  norm_num [binary64]

theorem NAN_not_finite : NAN.toRat? = none := by
  show binary64 0x7FF8000000000000 = _
  norm_num [binary64]

/-! ## Shared lemmas -/

/-- The record that `trans` builds in `co1` does not depend on what `co1` held
before, and `trans` is the call of `proj_trans` on that record followed by the
field-by-field copy of the result. -/
theorem trans_eq {σ PJ_DIRECTION : Type} (proj_trans : ProjTrans σ PJ_DIRECTION)
    (co1 : PJ_COORD) (pj : PJ_ptr) (direction : PJ_DIRECTION) (u1 v1 w1 t1 : Double) (s : σ) :
    trans proj_trans co1 pj direction u1 v1 w1 t1 s =
      ((proj_trans s pj direction ⟨⟨u1, v1, w1, t1⟩⟩).1.map
          (fun co2 => (⟨co2.uvwt.u, co2.uvwt.v, co2.uvwt.w, co2.uvwt.t⟩ : Outputs)),
        (proj_trans s pj direction ⟨⟨u1, v1, w1, t1⟩⟩).2) := by
  unfold trans
  simp only
  rcases h : proj_trans s pj direction ⟨⟨u1, v1, w1, t1⟩⟩ with ⟨_ | co2, s'⟩ <;> rfl

/-- The calls that the library has received after `trans` ran: those it had
received before, followed by one call whose arguments are the handle and the
direction given to `trans` and the record packed from `u1 v1 w1 t1`. -/
theorem trans_logged {σ PJ_DIRECTION : Type} (proj_trans : ProjTrans σ PJ_DIRECTION)
    (co1 : PJ_COORD) (pj : PJ_ptr) (direction : PJ_DIRECTION) (u1 v1 w1 t1 : Double) (s : σ)
    (log : List (Call PJ_DIRECTION)) :
    (trans (logged proj_trans) co1 pj direction u1 v1 w1 t1 (s, log)).2.2 =
      log ++ [⟨pj, direction, ⟨⟨u1, v1, w1, t1⟩⟩⟩] := by
  rw [trans_eq]
  rfl

/-! ## The claims -/

/-- C1: for every four input scalars, every handle and every direction value, with
`proj_trans` an arbitrary function (of its three arguments and of the state), the
values that `trans` stores through `u2 v2 w2 t2` are the fields `u v w t`, in that
order, of `proj_trans(pj, direction, c)`, where `c` is the record with `u = u1`,
`v = v1`, `w = w1`, `t = t1`; the state left behind is the one left by that call. -/
theorem trans_marshals {σ PJ_DIRECTION : Type}
    (f : σ → PJ_ptr → PJ_DIRECTION → PJ_COORD → PJ_COORD × σ) (co1 : PJ_COORD) (pj : PJ_ptr)
    (direction : PJ_DIRECTION) (u1 v1 w1 t1 : Double) (s : σ) :
    trans (returning f) co1 pj direction u1 v1 w1 t1 s =
      (some
        { u2 := (f s pj direction ⟨⟨u1, v1, w1, t1⟩⟩).1.uvwt.u
          v2 := (f s pj direction ⟨⟨u1, v1, w1, t1⟩⟩).1.uvwt.v
          w2 := (f s pj direction ⟨⟨u1, v1, w1, t1⟩⟩).1.uvwt.w
          t2 := (f s pj direction ⟨⟨u1, v1, w1, t1⟩⟩).1.uvwt.t },
        (f s pj direction ⟨⟨u1, v1, w1, t1⟩⟩).2) := by
  rw [trans_eq]
  rfl

/-- C2: `pjnull` returns 1 for the null pointer and 0 for every other handle value;
it is a total function of the handle and its result is always 0 or 1. -/
theorem pjnull_spec {σ : Type} (s : σ) :
    (pjnull 0 s).1 = 1 ∧
    (∀ pj : PJ_ptr, pj ≠ 0 → (pjnull pj s).1 = 0) ∧
    (∀ pj : PJ_ptr, (pjnull pj s).1 = 0 ∨ (pjnull pj s).1 = 1) := by
  refine ⟨rfl, ?_, ?_⟩
  · intro pj hpj
    simp [pjnull, hpj]
  · intro pj
    by_cases hpj : pj = 0
    · right
      simp [pjnull, hpj]
    · left
      simp [pjnull, hpj]

/-- Witness of C2: the null pointer gives 1, the handle at address 4096 gives 0. -/
theorem pjnull_spec_witness :
    (pjnull 0 ()).1 = 1 ∧ (4096 : PJ_ptr) ≠ 0 ∧ (pjnull 4096 ()).1 = 0 :=
  ⟨(pjnull_spec ()).1, by decide, (pjnull_spec ()).2.1 4096 (by decide)⟩

/-- C3: when `proj_trans` returns every coordinate record unchanged for the given
handle (and direction, in the given state), `trans` returns its inputs unchanged:
`(u2, v2, w2, t2) = (u1, v1, w1, t1)`; in particular the inputs
`(1.0, 2.0, 3.0, 4.0)` come back as `(1.0, 2.0, 3.0, 4.0)`. -/
theorem trans_identity {σ PJ_DIRECTION : Type} (proj_trans : ProjTrans σ PJ_DIRECTION)
    (pj : PJ_ptr) (direction : PJ_DIRECTION) (s : σ)
    (hid : ∀ co : PJ_COORD, (proj_trans s pj direction co).1 = some co) :
    (∀ (co1 : PJ_COORD) (u1 v1 w1 t1 : Double),
      (trans proj_trans co1 pj direction u1 v1 w1 t1 s).1 =
        some { u2 := u1, v2 := v1, w2 := w1, t2 := t1 }) ∧
    (∀ co1 : PJ_COORD,
      (trans proj_trans co1 pj direction lit_1_0 lit_2_0 lit_3_0 lit_4_0 s).1 =
        some { u2 := lit_1_0, v2 := lit_2_0, w2 := lit_3_0, t2 := lit_4_0 }) := by
  have key : ∀ (co1 : PJ_COORD) (u1 v1 w1 t1 : Double),
      (trans proj_trans co1 pj direction u1 v1 w1 t1 s).1 =
        some { u2 := u1, v2 := v1, w2 := w1, t2 := t1 } := by
    intro co1 u1 v1 w1 t1
    rw [trans_eq, hid]
    rfl
  exact ⟨key, fun co1 => key co1 _ _ _ _⟩

/-- Witness of C3: the identity pipeline, a handle at address 4096, the forward
direction (1), the inputs `(1.0, 2.0, 3.0, 4.0)`. -/
theorem trans_identity_witness :
    (∀ co : PJ_COORD, (identity_pipeline 0 4096 1 co).1 = some co) ∧
    (trans identity_pipeline stale 4096 1 lit_1_0 lit_2_0 lit_3_0 lit_4_0 0).1 =
      some { u2 := lit_1_0, v2 := lit_2_0, w2 := lit_3_0, t2 := lit_4_0 } :=
  ⟨fun _ => rfl, (trans_identity identity_pipeline 4096 1 0 (fun _ => rfl)).2 stale⟩

/-- C4: `uvwt(u, v, w, t)` is a coordinate record whose fields read back as
`(u, v, w, t)`, in that order, for every four scalars; in particular
`uvwt(10.5, -3.25, 0.0, 2021.5)` reads back as `(10.5, -3.25, 0.0, 2021.5)`. -/
theorem uvwt_roundtrip :
    (∀ u v w t : Double,
      ((uvwt u v w t).uvwt.u, (uvwt u v w t).uvwt.v, (uvwt u v w t).uvwt.w,
        (uvwt u v w t).uvwt.t) = (u, v, w, t)) ∧
    ((uvwt lit_10_5 lit_neg_3_25 lit_0_0 lit_2021_5).uvwt.u,
      (uvwt lit_10_5 lit_neg_3_25 lit_0_0 lit_2021_5).uvwt.v,
      (uvwt lit_10_5 lit_neg_3_25 lit_0_0 lit_2021_5).uvwt.w,
      (uvwt lit_10_5 lit_neg_3_25 lit_0_0 lit_2021_5).uvwt.t) =
        (lit_10_5, lit_neg_3_25, lit_0_0, lit_2021_5) :=
  ⟨fun _ _ _ _ => rfl, rfl⟩

/-- C5: whatever record `r` the call of `proj_trans` returns, `trans` returns too
(it has no failure of its own) and stores exactly the four fields of `r`, in
order; this holds for every `r`, so also for records made of the failure
sentinels (infinity, NaN): no field value changes what `trans` does. -/
theorem trans_propagates {σ PJ_DIRECTION : Type} (proj_trans : ProjTrans σ PJ_DIRECTION)
    (co1 : PJ_COORD) (pj : PJ_ptr) (direction : PJ_DIRECTION) (u1 v1 w1 t1 : Double) (s : σ)
    (r : PJ_COORD) (s' : σ)
    (hr : proj_trans s pj direction ⟨⟨u1, v1, w1, t1⟩⟩ = (some r, s')) :
    trans proj_trans co1 pj direction u1 v1 w1 t1 s =
      (some { u2 := r.uvwt.u, v2 := r.uvwt.v, w2 := r.uvwt.w, t2 := r.uvwt.t }, s') := by
  rw [trans_eq, hr]
  rfl

/-- Witness of C5: a result with `HUGE_VAL` in every field, and one with `NAN` in
every field, come out of `trans` as they are. -/
theorem trans_propagates_witness :
    (failing_pipeline 0 4096 1 ⟨⟨lit_1_0, lit_2_0, lit_3_0, lit_4_0⟩⟩ =
        (some ⟨⟨HUGE_VAL, HUGE_VAL, HUGE_VAL, HUGE_VAL⟩⟩, 1) ∧
      trans failing_pipeline stale 4096 1 lit_1_0 lit_2_0 lit_3_0 lit_4_0 0 =
        (some { u2 := HUGE_VAL, v2 := HUGE_VAL, w2 := HUGE_VAL, t2 := HUGE_VAL }, 1)) ∧
    (nan_pipeline 0 4096 (-1) ⟨⟨lit_1_0, lit_2_0, lit_3_0, lit_4_0⟩⟩ =
        (some ⟨⟨NAN, NAN, NAN, NAN⟩⟩, 1) ∧
      trans nan_pipeline stale 4096 (-1) lit_1_0 lit_2_0 lit_3_0 lit_4_0 0 =
        (some { u2 := NAN, v2 := NAN, w2 := NAN, t2 := NAN }, 1)) :=
  ⟨⟨rfl, trans_propagates failing_pipeline stale 4096 1 lit_1_0 lit_2_0 lit_3_0 lit_4_0 0
      ⟨⟨HUGE_VAL, HUGE_VAL, HUGE_VAL, HUGE_VAL⟩⟩ 1 rfl⟩,
    ⟨rfl, trans_propagates nan_pipeline stale 4096 (-1) lit_1_0 lit_2_0 lit_3_0 lit_4_0 0
      ⟨⟨NAN, NAN, NAN, NAN⟩⟩ 1 rfl⟩⟩

/-- C6: a null handle does not make `trans` fail by itself.  With `pj = 0` the
function still packs its inputs, calls `proj_trans` with the null handle, and
stores the fields of the result; `trans` fails to return exactly when that call
fails to return. -/
theorem trans_null_handle {σ PJ_DIRECTION : Type} (proj_trans : ProjTrans σ PJ_DIRECTION)
    (co1 : PJ_COORD) (direction : PJ_DIRECTION) (u1 v1 w1 t1 : Double) (s : σ)
    (log : List (Call PJ_DIRECTION)) :
    trans proj_trans co1 0 direction u1 v1 w1 t1 s =
      ((proj_trans s 0 direction ⟨⟨u1, v1, w1, t1⟩⟩).1.map
          (fun co2 => (⟨co2.uvwt.u, co2.uvwt.v, co2.uvwt.w, co2.uvwt.t⟩ : Outputs)),
        (proj_trans s 0 direction ⟨⟨u1, v1, w1, t1⟩⟩).2) ∧
    ((trans proj_trans co1 0 direction u1 v1 w1 t1 s).1 = none ↔
      (proj_trans s 0 direction ⟨⟨u1, v1, w1, t1⟩⟩).1 = none) ∧
    (trans (logged proj_trans) co1 0 direction u1 v1 w1 t1 (s, log)).2.2 =
      log ++ [⟨0, direction, ⟨⟨u1, v1, w1, t1⟩⟩⟩] := by
  refine ⟨trans_eq _ _ _ _ _ _ _ _ _, ?_, trans_logged _ _ _ _ _ _ _ _ _ _⟩
  rw [trans_eq]
  simp

/-- C7: neither function changes the handle.  `pjnull` leaves the whole state as
it found it, so it calls nothing.  The state that `trans` leaves is the state
left by its call of `proj_trans`, and the library receives exactly one more
call, with the handle value that `trans` was given. -/
theorem handle_frame {σ PJ_DIRECTION : Type} (proj_trans : ProjTrans σ PJ_DIRECTION)
    (co1 : PJ_COORD) (pj : PJ_ptr) (direction : PJ_DIRECTION) (u1 v1 w1 t1 : Double) (s : σ)
    (log : List (Call PJ_DIRECTION)) :
    (pjnull pj (s, log)).2 = (s, log) ∧
    (trans proj_trans co1 pj direction u1 v1 w1 t1 s).2 =
      (proj_trans s pj direction ⟨⟨u1, v1, w1, t1⟩⟩).2 ∧
    (trans (logged proj_trans) co1 pj direction u1 v1 w1 t1 (s, log)).2.1 =
      (proj_trans s pj direction ⟨⟨u1, v1, w1, t1⟩⟩).2 ∧
    (trans (logged proj_trans) co1 pj direction u1 v1 w1 t1 (s, log)).2.2 =
      log ++ [⟨pj, direction, ⟨⟨u1, v1, w1, t1⟩⟩⟩] := by
  refine ⟨rfl, ?_, ?_, trans_logged _ _ _ _ _ _ _ _ _ _⟩
  · rw [trans_eq]
  · rw [trans_eq]
    rfl

/-- C8: the adapter keeps nothing between calls.  When the results of `proj_trans`
are a fixed function of its arguments, two calls of `trans` with the same handle,
direction and `(u1, v1, w1, t1)` give the same outputs, whatever calls of `trans`
and `pjnull` were made before each of them (and whatever the local variable `co1`
held); two calls of `pjnull` with the same handle give the same result. -/
theorem stateless {σ PJ_DIRECTION : Type} (proj_trans : ProjTrans σ PJ_DIRECTION)
    (g : PJ_ptr → PJ_DIRECTION → PJ_COORD → Option PJ_COORD)
    (hfix : ∀ s pj direction co, (proj_trans s pj direction co).1 = g pj direction co)
    (before before' : List (Op PJ_DIRECTION)) (s s' : σ) (co1 co1' : PJ_COORD)
    (pj : PJ_ptr) (direction : PJ_DIRECTION) (u1 v1 w1 t1 : Double) :
    (trans proj_trans co1 pj direction u1 v1 w1 t1 (runAll proj_trans before s)).1 =
      (trans proj_trans co1' pj direction u1 v1 w1 t1 (runAll proj_trans before' s')).1 ∧
    (pjnull pj (runAll proj_trans before s)).1 =
      (pjnull pj (runAll proj_trans before' s')).1 := by
  refine ⟨?_, rfl⟩
  rw [trans_eq, trans_eq]
  simp only [hfix _ pj direction _]

/-- Witness of C8: the identity pipeline, which counts its calls.  After one call
of `trans` and one of `pjnull` the state is another one than at the start, and
`trans` and `pjnull` give what they give at the start. -/
theorem stateless_witness :
    (∀ (s : Nat) (pj : PJ_ptr) (direction : Int) (co : PJ_COORD),
      (identity_pipeline s pj direction co).1 = some co) ∧
    runAll identity_pipeline
        [Op.trans stale 0 (-1) lit_10_5 lit_0_0 lit_0_0 lit_0_0, Op.pjnull 4096] 0 ≠
      runAll identity_pipeline [] 0 ∧
    (trans identity_pipeline stale 4096 1 lit_1_0 lit_2_0 lit_3_0 lit_4_0
        (runAll identity_pipeline
          [Op.trans stale 0 (-1) lit_10_5 lit_0_0 lit_0_0 lit_0_0, Op.pjnull 4096] 0)).1 =
      (trans identity_pipeline ⟨⟨lit_0_0, lit_0_0, lit_0_0, lit_0_0⟩⟩ 4096 1
        lit_1_0 lit_2_0 lit_3_0 lit_4_0 (runAll identity_pipeline [] 0)).1 ∧
    (pjnull 4096 (runAll identity_pipeline
        [Op.trans stale 0 (-1) lit_10_5 lit_0_0 lit_0_0 lit_0_0, Op.pjnull 4096] 0)).1 =
      (pjnull 4096 (runAll identity_pipeline [] 0)).1 :=
  ⟨fun _ _ _ _ => rfl, by decide,
    stateless identity_pipeline (fun _ _ co => some co) (fun _ _ _ _ => rfl)
      [Op.trans stale 0 (-1) lit_10_5 lit_0_0 lit_0_0 lit_0_0, Op.pjnull 4096] [] 0 0
      stale ⟨⟨lit_0_0, lit_0_0, lit_0_0, lit_0_0⟩⟩ 4096 1 lit_1_0 lit_2_0 lit_3_0 lit_4_0⟩

/-- C9: `trans` neither checks nor translates the direction.  For every type of
direction values and every value of it (so also values other than forward and
inverse), the call that the library receives carries the direction that `trans`
was given, the record it carries is the same for any two directions, and the
result of `trans` is that of `proj_trans` at this direction. -/
theorem trans_direction_passthrough {σ PJ_DIRECTION : Type}
    (proj_trans : ProjTrans σ PJ_DIRECTION) (co1 : PJ_COORD) (pj : PJ_ptr)
    (direction direction' : PJ_DIRECTION) (u1 v1 w1 t1 : Double) (s : σ)
    (log : List (Call PJ_DIRECTION)) :
    (trans (logged proj_trans) co1 pj direction u1 v1 w1 t1 (s, log)).2.2.map Call.direction =
      log.map Call.direction ++ [direction] ∧
    (trans (logged proj_trans) co1 pj direction u1 v1 w1 t1 (s, log)).2.2.map Call.co =
      (trans (logged proj_trans) co1 pj direction' u1 v1 w1 t1 (s, log)).2.2.map Call.co ∧
    (trans proj_trans co1 pj direction u1 v1 w1 t1 s).1 =
      (proj_trans s pj direction ⟨⟨u1, v1, w1, t1⟩⟩).1.map
        (fun co2 => (⟨co2.uvwt.u, co2.uvwt.v, co2.uvwt.w, co2.uvwt.t⟩ : Outputs)) := by
  refine ⟨?_, ?_, ?_⟩
  · rw [trans_logged]
    simp
  · rw [trans_logged, trans_logged]
    simp
  · rw [trans_eq]

end Proj
